import Mathlib

/-!
# Participant Admin — verified model of the Directory and the Statistics Aggregator

Shallow embedding of the participant data layer (`ParticipantsService`, the
signal-based variant) and the dashboard statistics (`DashboardComponent`
`calculateStats` / `calculateAverageSkill` / `calculateSkillDistribution` /
`updatePieChart`) of the `participant-admin` Angular application.

Modelling conventions:
* Skill ratings are natural numbers (the data model declares them integers in
  `[0,10]`); JavaScript `number` arithmetic in the aggregator is modelled
  exactly over `ℚ` (the values involved are small integers and one division).
* `Math.round` is `jsRound`: round half toward positive infinity.
* The reactive signal state of the service is an explicit `ServiceState`
  record; each CRUD method becomes a state transformer that also takes the
  outcome of its single HTTP call (`Except HttpError α`) and returns the new
  state together with the result the observable delivers
  (`Except String α`, the error case carrying `handleError`'s message).
-/

namespace ParticipantAdmin

/-- The six tracked skills (`SkillType` in `participant.model.ts`). -/
inductive SkillType where
  | python_skill
  | angular_skill
  | javascript_skill
  | html_skill
  | css_skill
  | java_skill
deriving DecidableEq, Repr, Fintype

/-- A participant record as returned by the API (`Participant` interface,
strict variant of `participant.model.ts`). Timestamps and contact fields are
plain strings; skill ratings are naturals (integers in `[0,10]` by the data
model's invariant). -/
structure Participant where
  id : Nat
  name : String
  whatsapp : String := ""
  email : String := ""
  linkedin : String := ""
  github_id : String := ""
  python_skill : Nat := 0
  angular_skill : Nat := 0
  javascript_skill : Nat := 0
  html_skill : Nat := 0
  css_skill : Nat := 0
  java_skill : Nat := 0
  outcome : String := ""
  created_at : String := ""
  updated_at : String := ""
deriving DecidableEq, Repr

/-- Field access `p[skillField]` used by the dashboard. -/
def Participant.skill (p : Participant) : SkillType → Nat
  | .python_skill => p.python_skill
  | .angular_skill => p.angular_skill
  | .javascript_skill => p.javascript_skill
  | .html_skill => p.html_skill
  | .css_skill => p.css_skill
  | .java_skill => p.java_skill

/-- JavaScript `Math.round`: round half toward positive infinity. -/
def jsRound (x : ℚ) : ℤ := ⌊x + 1 / 2⌋

/-- `DashboardComponent.calculateAverageSkill` (signals variant):
filter the skill values that are `> 0`; return `0` when none remain,
otherwise `Math.round((sum / validSkills.length) * 10) / 10`. -/
def calculateAverageSkill (participants : List Participant)
    (skillField : SkillType) : ℚ :=
  let validSkills :=
    (participants.map (fun p => p.skill skillField)).filter
      (fun s => decide (0 < s))
  if validSkills.length = 0 then 0
  else
    let sum : Nat := validSkills.foldl (fun acc s => acc + s) 0
    (jsRound (((sum : ℚ) / (validSkills.length : ℚ)) * 10) : ℚ) / 10

/-- One skill's Low/Medium/High bucket counts. -/
structure SkillDist where
  low : Nat
  medium : Nat
  high : Nat
deriving DecidableEq, Repr

/-- `DashboardComponent.calculateSkillDistribution` (signals variant):
filter the values that are `> 0`, then count those in `[1,3]`, `[4,6]`,
`[7,10]`. -/
def calculateSkillDistribution (participants : List Participant)
    (skillField : SkillType) : SkillDist :=
  let skills :=
    (participants.map (fun p => p.skill skillField)).filter
      (fun s => decide (0 < s))
  { low := (skills.filter (fun s => decide (1 ≤ s) && decide (s ≤ 3))).length
    medium := (skills.filter (fun s => decide (4 ≤ s) && decide (s ≤ 6))).length
    high := (skills.filter (fun s => decide (7 ≤ s) && decide (s ≤ 10))).length }

/-- The `averageSkills` record of `ParticipantStats`. -/
structure AverageSkills where
  python : ℚ
  angular : ℚ
  javascript : ℚ
  html : ℚ
  css : ℚ
  java : ℚ
deriving DecidableEq, Repr

/-- `ParticipantStats`: the skill-distribution object is modelled as a partial
map so that the empty-snapshot case (`skillDistribution: {}`) has no
per-skill entries, exactly like the TypeScript object literal. -/
structure ParticipantStats where
  totalCount : Nat
  averageSkills : AverageSkills
  skillDistribution : SkillType → Option SkillDist

/-- `DashboardComponent.calculateStats` (signals variant): for the empty list
return zeros and an empty distribution map; otherwise compute the six
averages and a distribution entry for each of the six skills. -/
def calculateStats (participants : List Participant) : ParticipantStats :=
  if participants.length = 0 then
    { totalCount := 0
      averageSkills :=
        { python := 0, angular := 0, javascript := 0
          html := 0, css := 0, java := 0 }
      skillDistribution := fun _ => none }
  else
    { totalCount := participants.length
      averageSkills :=
        { python := calculateAverageSkill participants .python_skill
          angular := calculateAverageSkill participants .angular_skill
          javascript := calculateAverageSkill participants .javascript_skill
          html := calculateAverageSkill participants .html_skill
          css := calculateAverageSkill participants .css_skill
          java := calculateAverageSkill participants .java_skill }
      skillDistribution := fun s => some (calculateSkillDistribution participants s) }

/-- Look up the per-skill average inside a `ParticipantStats` value. -/
def ParticipantStats.avgOf (st : ParticipantStats) : SkillType → ℚ
  | .python_skill => st.averageSkills.python
  | .angular_skill => st.averageSkills.angular
  | .javascript_skill => st.averageSkills.javascript
  | .html_skill => st.averageSkills.html
  | .css_skill => st.averageSkills.css
  | .java_skill => st.averageSkills.java

/-- The data the pie chart consumes (labels plus the single numeric
dataset). -/
structure PieData where
  labels : List String
  data : List Nat
deriving DecidableEq, Repr

/-- `DashboardComponent.updatePieChart`: when the selected skill has no
distribution entry the chart data is emptied, otherwise the three bucket
counts are charted. -/
def updatePieChart (stats : ParticipantStats) (selectedSkill : SkillType) :
    PieData :=
  match stats.skillDistribution selectedSkill with
  | none => { labels := [], data := [] }
  | some d =>
    { labels := ["Low (1-3)", "Medium (4-6)", "High (7-10)"]
      data := [d.low, d.medium, d.high] }

/-! ## Spec-side restatement of the average (for the refinement claim C1) -/

/-- Rounding a rational to one decimal place, with JavaScript `Math.round`
semantics at the midpoint. -/
def roundTo1 (x : ℚ) : ℚ := (jsRound (x * 10) : ℚ) / 10

/-- Spec-side definition, following the spec's words: "collect values from
participants where value > 0; average = arithmetic mean of that filtered
collection, rounded to one decimal place; average = 0 if the filtered
collection is empty". To be compared with `calculateAverageSkill`. -/
def specSkillAverage (vals : List Nat) : ℚ :=
  let specified := vals.filter (fun v => decide (0 < v))
  if specified.length = 0 then 0
  else roundTo1 ((specified.sum : ℚ) / (specified.length : ℚ))

/-! ## Legacy dashboard variant (`src/src/app/dashboard/dashboard.component.ts`)

The repository carries a second, older dashboard whose `computeStats`
divides the plain sum by the total count (zeros included, no rounding).
The spec's design notes flag this divergence and designate the stricter
variant above as canonical; the legacy variant is embedded here only to
document the difference. -/

/-- `DashboardStats` of the legacy dashboard component. -/
structure DashboardStats where
  totalParticipants : Nat
  avgPythonSkill : ℚ
  avgAngularSkill : ℚ
  avgJavaScriptSkill : ℚ
  avgHtmlSkill : ℚ
  avgCssSkill : ℚ
  avgJavaSkill : ℚ
deriving DecidableEq, Repr

/-- `DashboardComponent.computeStats` of the legacy variant: each average is
the sum over all participants (zeros included) divided by the total count. -/
def computeStats (participants : List Participant) : DashboardStats :=
  let total := participants.length
  if total = 0 then
    { totalParticipants := 0
      avgPythonSkill := 0, avgAngularSkill := 0, avgJavaScriptSkill := 0
      avgHtmlSkill := 0, avgCssSkill := 0, avgJavaSkill := 0 }
  else
    let sumOf : SkillType → Nat := fun s =>
      participants.foldl (fun sum p => sum + p.skill s) 0
    { totalParticipants := total
      avgPythonSkill := (sumOf .python_skill : ℚ) / (total : ℚ)
      avgAngularSkill := (sumOf .angular_skill : ℚ) / (total : ℚ)
      avgJavaScriptSkill := (sumOf .javascript_skill : ℚ) / (total : ℚ)
      avgHtmlSkill := (sumOf .html_skill : ℚ) / (total : ℚ)
      avgCssSkill := (sumOf .css_skill : ℚ) / (total : ℚ)
      avgJavaSkill := (sumOf .java_skill : ℚ) / (total : ℚ) }

/-! ## Participant Directory (`ParticipantsService`, signals variant) -/

/-- `CreateParticipantDto` (strict variant of `participant.model.ts`):
the payload submitted for creation, lacking identifier and timestamps. -/
structure CreateParticipantDto where
  name : String
  whatsapp : String := ""
  email : String := ""
  linkedin : String := ""
  github_id : String := ""
  python_skill : Nat := 0
  angular_skill : Nat := 0
  javascript_skill : Nat := 0
  html_skill : Nat := 0
  css_skill : Nat := 0
  java_skill : Nat := 0
  outcome : String := ""
deriving DecidableEq, Repr

/-- `UpdateParticipantDto extends Partial<CreateParticipantDto>`: every field
optional. -/
structure UpdateParticipantDto where
  name : Option String := none
  whatsapp : Option String := none
  email : Option String := none
  linkedin : Option String := none
  github_id : Option String := none
  python_skill : Option Nat := none
  angular_skill : Option Nat := none
  javascript_skill : Option Nat := none
  html_skill : Option Nat := none
  css_skill : Option Nat := none
  java_skill : Option Nat := none
  outcome : Option String := none
deriving DecidableEq, Repr

/-- An `HttpErrorResponse` as discriminated by `handleError`: either a
client-side `ErrorEvent` or a server response with a status code, an
optional `errors` map (modelled as the flattened list of field messages the
code joins), and a message. -/
inductive HttpError where
  | clientSide (message : String)
  | server (status : Nat) (validationErrors : Option (List String))
      (message : String)
deriving DecidableEq, Repr

/-- `ParticipantsService.handleError` (signals variant): map the HTTP error
to a user-facing message, mirroring the `switch (error.status)`. -/
def handleError : HttpError → String
  | .clientSide msg => "Error: " ++ msg
  | .server status validationErrors msg =>
    if status = 400 then "Bad request. Please check your input."
    else if status = 401 then "Unauthorized. Please check your API key."
    else if status = 403 then
      "Forbidden. You do not have permission to perform this action."
    else if status = 404 then "Resource not found."
    else if status = 422 then
      match validationErrors with
      | some es => "Validation error: " ++ String.intercalate ", " es
      | none => "Validation error. Please check your input."
    else if status = 500 then "Server error. Please try again later."
    else "Error " ++ toString status ++ ": " ++ msg

/-- The service's reactive state: the `participants`, `loading` and `error`
signals. -/
structure ServiceState where
  participants : List Participant
  loading : Bool
  error : Option String
deriving DecidableEq, Repr

/-- `ParticipantsService.list`: set loading, clear error, then either replace
the snapshot wholesale with the response or record the failure; the snapshot
is only written in the success handler. -/
def listOp (st : ServiceState) (resp : Except HttpError (List Participant)) :
    ServiceState × Except String (List Participant) :=
  let pending : ServiceState := { st with loading := true, error := none }
  match resp with
  | .ok ps => ({ pending with participants := ps, loading := false }, .ok ps)
  | .error e =>
    ({ pending with
        loading := false
        error := some "Failed to load participants" },
      .error (handleError e))

/-- `ParticipantsService.get`: fetch one record; never mutates the
snapshot. -/
def getOp (st : ServiceState) (id : Nat)
    (resp : Except HttpError Participant) :
    ServiceState × Except String Participant :=
  let pending : ServiceState := { st with loading := true, error := none }
  match resp with
  | .ok p => ({ pending with loading := false }, .ok p)
  | .error e =>
    ({ pending with
        loading := false
        error := some "Failed to load participant" },
      .error (handleError e))

/-- `ParticipantsService.create`: on success append the server-returned
record to the snapshot (`[...currentParticipants, newParticipant]`). -/
def createOp (st : ServiceState) (dto : CreateParticipantDto)
    (resp : Except HttpError Participant) :
    ServiceState × Except String Participant :=
  let pending : ServiceState := { st with loading := true, error := none }
  match resp with
  | .ok p =>
    ({ pending with
        participants := st.participants ++ [p]
        loading := false },
      .ok p)
  | .error e =>
    ({ pending with
        loading := false
        error := some "Failed to create participant" },
      .error (handleError e))

/-- `ParticipantsService.update`: on success, find the first index whose
record has the given identifier (`findIndex`, which yields the list length
here where JavaScript yields `-1`) and, when found, replace the record at
that index; otherwise leave the snapshot untouched. -/
def updateOp (st : ServiceState) (id : Nat) (dto : UpdateParticipantDto)
    (resp : Except HttpError Participant) :
    ServiceState × Except String Participant :=
  let pending : ServiceState := { st with loading := true, error := none }
  match resp with
  | .ok updated =>
    let ps := st.participants
    let index := ps.findIdx (fun p => p.id == id)
    let ps' := if index < ps.length then ps.set index updated else ps
    ({ pending with participants := ps', loading := false }, .ok updated)
  | .error e =>
    ({ pending with
        loading := false
        error := some "Failed to update participant" },
      .error (handleError e))

/-- `ParticipantsService.remove`: on success drop every record with the given
identifier (`filter(p => p.id !== id)`). -/
def removeOp (st : ServiceState) (id : Nat)
    (resp : Except HttpError Unit) :
    ServiceState × Except String Unit :=
  let pending : ServiceState := { st with loading := true, error := none }
  match resp with
  | .ok _ =>
    ({ pending with
        participants := st.participants.filter (fun p => p.id != id)
        loading := false },
      .ok ())
  | .error e =>
    ({ pending with
        loading := false
        error := some "Failed to delete participant" },
      .error (handleError e))

/-! ## Concrete fixtures used by witnesses -/

/-- Two participants, angular ratings `0` and `8`. -/
def zeroEightSnapshot : List Participant :=
  [{ id := 1, name := "a", angular_skill := 0 },
    { id := 2, name := "b", angular_skill := 8 }]

/-- Three participants, angular ratings `0`, `4` and `9`. -/
def angularScenario : List Participant :=
  [{ id := 1, name := "a", angular_skill := 0 },
    { id := 2, name := "b", angular_skill := 4 },
    { id := 3, name := "c", angular_skill := 9 }]

/-- A service state holding one record. -/
def oneRecordState : ServiceState :=
  { participants := [{ id := 1, name := "a" }], loading := false, error := none }

/-- A service state holding two records with distinct identifiers. -/
def twoRecordState : ServiceState :=
  { participants := [{ id := 1, name := "a" }, { id := 2, name := "b" }]
    loading := false
    error := none }

/-! ## Helper lemmas -/

/-- `Math.round` of an integer is that integer. -/
theorem jsRound_intCast (n : ℤ) : jsRound (n : ℚ) = n := by
  unfold jsRound
  rw [Int.floor_eq_iff]
  constructor
  · linarith
  · linarith

/-- When the filtered collection of specified values is the single value `v`,
the computed average is exactly `v`. -/
theorem calculateAverageSkill_filter_single (ps : List Participant)
    (s : SkillType) (v : Nat)
    (h : (ps.map (fun p => p.skill s)).filter (fun x => decide (0 < x)) = [v]) :
    calculateAverageSkill ps s = (v : ℚ) := by
  unfold calculateAverageSkill
  simp only [h, List.length_cons, List.length_nil, List.foldl, Nat.zero_add]
  rw [if_neg one_ne_zero]
  have hcast : (((v : ℕ) : ℚ) / ((1 : ℕ) : ℚ)) * 10 = (((v : ℤ) * 10 : ℤ) : ℚ) := by
    push_cast
    ring
  rw [hcast, jsRound_intCast]
  push_cast
  ring

/-- Counting over the mapped skill values equals counting over the
participants. -/
theorem length_filter_map_skill (ps : List Participant) (s : SkillType)
    (g : Nat → Bool) :
    ((ps.map (fun p => p.skill s)).filter g).length
      = (ps.filter (fun p => g (p.skill s))).length := by
  rw [List.filter_map, List.length_map]
  rfl

/-- A bucket predicate with lower bound at least `1` already implies the
`> 0` filter. -/
theorem bucket_and_pos (lo hi : Nat) (hlo : 1 ≤ lo) (v : Nat) :
    ((decide (lo ≤ v) && decide (v ≤ hi)) && decide (0 < v))
      = (decide (lo ≤ v) && decide (v ≤ hi)) := by
  by_cases h1 : lo ≤ v
  · have h0 : 0 < v := Nat.lt_of_lt_of_le Nat.zero_lt_one (le_trans hlo h1)
    simp [h1, h0]
  · simp [h1]

/-- Over values bounded by `10`, the three bucket counts sum to the count of
positive values. -/
theorem bucket_sum_eq (l : List Nat) (hl : ∀ v ∈ l, v ≤ 10) :
    (l.filter (fun v => decide (1 ≤ v) && decide (v ≤ 3))).length
      + (l.filter (fun v => decide (4 ≤ v) && decide (v ≤ 6))).length
      + (l.filter (fun v => decide (7 ≤ v) && decide (v ≤ 10))).length
      = (l.filter (fun v => decide (0 < v))).length := by
  induction l with
  | nil => rfl
  | cons v t ih =>
    have hv : v ≤ 10 := hl v (List.mem_cons_self v t)
    have ht : ∀ w ∈ t, w ≤ 10 := fun w hw => hl w (List.mem_cons_of_mem v hw)
    specialize ih ht
    simp only [List.filter_cons]
    interval_cases v <;> simp_all <;> omega

/-! ## Claims about the Statistics Aggregator -/

/-- C1: for snapshots whose skill ratings lie in `[0,10]`, the per-skill
average computed by `calculateAverageSkill` equals the arithmetic mean of
the values strictly greater than `0`, rounded to one decimal place
(`specSkillAverage`, written from the spec's words), and equals `0` when no
participant has a positive value for that skill. -/
theorem C1_average_ignores_zero_values (ps : List Participant) (s : SkillType)
    (hrange : ∀ p ∈ ps, ∀ t, p.skill t ≤ 10) :
    calculateAverageSkill ps s = specSkillAverage (ps.map (fun p => p.skill s))
    ∧ ((ps.map (fun p => p.skill s)).filter (fun v => decide (0 < v)) = [] →
        calculateAverageSkill ps s = 0) := by
  constructor
  · simp only [calculateAverageSkill, specSkillAverage, roundTo1,
      List.sum_eq_foldl]
  · intro h
    simp only [calculateAverageSkill, h, List.length_nil, if_pos]

/-- C2: for snapshots whose skill ratings lie in `[0,10]`, the Low, Medium
and High buckets of `calculateSkillDistribution` count exactly the
participants whose value for the skill lies in `[1,3]`, `[4,6]` and `[7,10]`
respectively (so a value of `0` increments no bucket), and the three buckets
together partition the participants with a positive value for the skill. -/
theorem C2_buckets_partition_specified (ps : List Participant) (s : SkillType)
    (hrange : ∀ p ∈ ps, p.skill s ≤ 10) :
    (calculateSkillDistribution ps s).low
      = (ps.filter (fun p => decide (1 ≤ p.skill s) && decide (p.skill s ≤ 3))).length
    ∧ (calculateSkillDistribution ps s).medium
      = (ps.filter (fun p => decide (4 ≤ p.skill s) && decide (p.skill s ≤ 6))).length
    ∧ (calculateSkillDistribution ps s).high
      = (ps.filter (fun p => decide (7 ≤ p.skill s) && decide (p.skill s ≤ 10))).length
    ∧ (calculateSkillDistribution ps s).low
        + (calculateSkillDistribution ps s).medium
        + (calculateSkillDistribution ps s).high
      = (ps.filter (fun p => decide (0 < p.skill s))).length := by
  have absorb : ∀ lo hi : Nat, 1 ≤ lo →
      ((ps.map (fun p => p.skill s)).filter (fun v => decide (0 < v))).filter
          (fun v => decide (lo ≤ v) && decide (v ≤ hi))
        = (ps.map (fun p => p.skill s)).filter
            (fun v => decide (lo ≤ v) && decide (v ≤ hi)) := by
    intro lo hi hlo
    rw [List.filter_filter]
    exact List.filter_congr (fun v _ => bucket_and_pos lo hi hlo v)
  have hlow : (calculateSkillDistribution ps s).low
      = ((ps.map (fun p => p.skill s)).filter
          (fun v => decide (1 ≤ v) && decide (v ≤ 3))).length := by
    show (((ps.map (fun p => p.skill s)).filter (fun v => decide (0 < v))).filter
        (fun v => decide (1 ≤ v) && decide (v ≤ 3))).length = _
    rw [absorb 1 3 (by norm_num)]
  have hmed : (calculateSkillDistribution ps s).medium
      = ((ps.map (fun p => p.skill s)).filter
          (fun v => decide (4 ≤ v) && decide (v ≤ 6))).length := by
    show (((ps.map (fun p => p.skill s)).filter (fun v => decide (0 < v))).filter
        (fun v => decide (4 ≤ v) && decide (v ≤ 6))).length = _
    rw [absorb 4 6 (by norm_num)]
  have hhigh : (calculateSkillDistribution ps s).high
      = ((ps.map (fun p => p.skill s)).filter
          (fun v => decide (7 ≤ v) && decide (v ≤ 10))).length := by
    show (((ps.map (fun p => p.skill s)).filter (fun v => decide (0 < v))).filter
        (fun v => decide (7 ≤ v) && decide (v ≤ 10))).length = _
    rw [absorb 7 10 (by norm_num)]
  have hvals : ∀ v ∈ ps.map (fun p => p.skill s), v ≤ 10 := by
    intro v hv
    obtain ⟨p, hp, hpv⟩ := List.mem_map.mp hv
    exact hpv ▸ hrange p hp
  have hsum := bucket_sum_eq (ps.map (fun p => p.skill s)) hvals
  refine ⟨?_, ?_, ?_, ?_⟩
  · rw [hlow, length_filter_map_skill]
  · rw [hmed, length_filter_map_skill]
  · rw [hhigh, length_filter_map_skill]
  · rw [hlow, hmed, hhigh, hsum, length_filter_map_skill]

/-- C5: on the empty snapshot `calculateStats` yields total count `0` and
average `0` for every skill, and the division inside
`calculateAverageSkill` is guarded: whenever the filtered collection is
empty the function returns `0` through the guard, so the division by the
collection's length is never reached with length `0`. -/
theorem C5_empty_snapshot_safe :
    (calculateStats []).totalCount = 0
    ∧ (∀ s, (calculateStats []).avgOf s = 0)
    ∧ (∀ (ps : List Participant) (s : SkillType),
        ((ps.map (fun p => p.skill s)).filter (fun v => decide (0 < v))).length = 0 →
        calculateAverageSkill ps s = 0) := by
  refine ⟨rfl, ?_, ?_⟩
  · intro s
    cases s <;> rfl
  · intro ps s h
    simp only [calculateAverageSkill, h, if_pos]

/-- C10: on the empty snapshot the stats carry no per-skill distribution
entry at all (and `updatePieChart` must — and does — cope with the missing
entry by emptying the chart), while on any non-empty snapshot every one of
the six skills has a distribution entry. -/
theorem C10_distribution_entries_presence :
    (∀ s, (calculateStats []).skillDistribution s = none)
    ∧ (∀ s, updatePieChart (calculateStats []) s = { labels := [], data := [] })
    ∧ (∀ (ps : List Participant), ps ≠ [] → ∀ s,
        (calculateStats ps).skillDistribution s
          = some (calculateSkillDistribution ps s)) := by
  refine ⟨fun s => rfl, fun s => rfl, ?_⟩
  intro ps hne s
  have hlen : ¬ ps.length = 0 := fun h => hne (List.length_eq_zero.mp h)
  simp only [calculateStats, if_neg hlen]

/-- C3 (counterexample): a snapshot containing the out-of-range skill value
`11` is not rejected by the Aggregator — `calculateStats` returns ordinary
statistics in which the out-of-range value flows into the average (which
becomes `11`, itself outside `[0,10]`) while landing in no distribution
bucket, i.e. skewed statistics are produced silently. -/
theorem C3_counterexample_no_rejection :
    (calculateStats [{ id := 1, name := "x", angular_skill := 11 }]).averageSkills.angular
      = 11
    ∧ (calculateStats [{ id := 1, name := "x", angular_skill := 11 }]).skillDistribution
        SkillType.angular_skill = some { low := 0, medium := 0, high := 0 }
    ∧ (calculateStats [{ id := 1, name := "x", angular_skill := 11 }]).totalCount = 1 := by
  refine ⟨?_, by decide, by decide⟩
  have h := calculateAverageSkill_filter_single
    [{ id := 1, name := "x", angular_skill := 11 }] .angular_skill 11 (by decide)
  have hproj :
      (calculateStats [{ id := 1, name := "x", angular_skill := 11 }]).averageSkills.angular
        = calculateAverageSkill [{ id := 1, name := "x", angular_skill := 11 }]
            .angular_skill := rfl
  rw [hproj, h]
  norm_num

/-- C3 (amended): the Aggregator performs no input validation. For a
participant whose value for a skill exceeds `10`, the statistics are
computed normally: the out-of-range value is included, unclamped, in that
skill's average (here, as the single specified value, it becomes the
average itself), while it falls into none of the Low/Medium/High buckets. -/
theorem C3_amended_out_of_range_included (p : Participant) (s : SkillType)
    (h : 10 < p.skill s) :
    (calculateStats [p]).avgOf s = (p.skill s : ℚ)
    ∧ (calculateStats [p]).skillDistribution s
        = some { low := 0, medium := 0, high := 0 } := by
  have hpos : 0 < p.skill s := lt_trans (by norm_num) h
  have hfil : ([p].map (fun q => q.skill s)).filter (fun x => decide (0 < x))
      = [p.skill s] := by
    simp [hpos]
  constructor
  · have havg := calculateAverageSkill_filter_single [p] s (p.skill s) hfil
    have hproj : (calculateStats [p]).avgOf s = calculateAverageSkill [p] s := by
      cases s <;> rfl
    rw [hproj, havg]
  · have hproj : (calculateStats [p]).skillDistribution s
        = some (calculateSkillDistribution [p] s) := rfl
    rw [hproj]
    have h3 : ¬ p.skill s ≤ 3 := by omega
    have h6 : ¬ p.skill s ≤ 6 := by omega
    have h10 : ¬ p.skill s ≤ 10 := by omega
    simp only [calculateSkillDistribution, hfil]
    simp [h3, h6, h10]

/-! ## Claims about the Participant Directory -/

/-- A string append with a nonempty left part is nonempty. -/
theorem string_append_ne_empty (a b : String) (h : a ≠ "") : a ++ b ≠ "" := by
  intro hab
  apply h
  have hdata := congrArg String.data hab
  rw [String.data_append] at hdata
  have ha : a.data = [] := (List.append_eq_nil.mp hdata).1
  cases a with
  | mk d =>
    simp only at ha
    rw [show ("" : String) = ⟨[]⟩ from rfl]
    exact congrArg String.mk ha

/-- Every message produced by `handleError` is nonempty. -/
theorem handleError_ne_empty (e : HttpError) : handleError e ≠ "" := by
  cases e with
  | clientSide msg => exact string_append_ne_empty _ _ (by decide)
  | server status errs msg =>
    show (if status = 400 then _ else _) ≠ _
    split_ifs <;> try decide
    · cases errs with
      | some es => exact string_append_ne_empty _ _ (by decide)
      | none => decide
    · exact string_append_ne_empty _ _
        (string_append_ne_empty _ _ (string_append_ne_empty _ _ (by decide)))

/-- C4: whenever the underlying HTTP call of any of the five Directory
operations fails, the operation's result is an error whose message is the
nonempty human-readable one `handleError` derives from the error, and the
in-memory snapshot is exactly what it was before the operation. -/
theorem C4_failed_ops_preserve_snapshot (st : ServiceState) (e : HttpError)
    (id : Nat) (draft : CreateParticipantDto) (patch : UpdateParticipantDto) :
    ((listOp st (.error e)).1.participants = st.participants
      ∧ (listOp st (.error e)).2 = .error (handleError e))
    ∧ ((getOp st id (.error e)).1.participants = st.participants
      ∧ (getOp st id (.error e)).2 = .error (handleError e))
    ∧ ((createOp st draft (.error e)).1.participants = st.participants
      ∧ (createOp st draft (.error e)).2 = .error (handleError e))
    ∧ ((updateOp st id patch (.error e)).1.participants = st.participants
      ∧ (updateOp st id patch (.error e)).2 = .error (handleError e))
    ∧ ((removeOp st id (.error e)).1.participants = st.participants
      ∧ (removeOp st id (.error e)).2 = .error (handleError e))
    ∧ handleError e ≠ "" :=
  ⟨⟨rfl, rfl⟩, ⟨rfl, rfl⟩, ⟨rfl, rfl⟩, ⟨rfl, rfl⟩, ⟨rfl, rfl⟩,
    handleError_ne_empty e⟩

/-- C6: a successful `create` appends the server-returned record at the end
of the snapshot, leaves every previously present record unchanged at its
position, grows the snapshot by exactly one, and returns that record. -/
theorem C6_create_appends (st : ServiceState) (draft : CreateParticipantDto)
    (created : Participant) :
    (createOp st draft (.ok created)).1.participants
      = st.participants ++ [created]
    ∧ (createOp st draft (.ok created)).1.participants.length
      = st.participants.length + 1
    ∧ (createOp st draft (.ok created)).1.participants.take
        st.participants.length = st.participants
    ∧ (∀ i, i < st.participants.length →
        (createOp st draft (.ok created)).1.participants[i]?
          = st.participants[i]?)
    ∧ (createOp st draft (.ok created)).2 = .ok created := by
  refine ⟨rfl, ?_, ?_, ?_, rfl⟩
  · show (st.participants ++ [created]).length = st.participants.length + 1
    simp
  · exact List.take_left _ _
  · intro i hi
    show (st.participants ++ [created])[i]? = _
    rw [List.getElem?_append, if_pos hi]

/-- `findIndex` on a list whose mapped identifiers are nodup returns the
index of the (unique) record carrying the identifier. -/
theorem findIdx_id_of_nodup (l : List Participant) (id i : Nat)
    (hnd : (l.map Participant.id).Nodup) (hi : i < l.length)
    (hid : (l.get ⟨i, hi⟩).id = id) :
    l.findIdx (fun q => q.id == id) = i := by
  induction l generalizing i with
  | nil => exact absurd hi (Nat.not_lt_zero i)
  | cons a t ih =>
    rw [List.findIdx_cons]
    cases i with
    | zero =>
      have ha : a.id = id := hid
      simp [ha]
    | succ n =>
      have hn : n < t.length := Nat.lt_of_succ_lt_succ hi
      have htid : (t.get ⟨n, hn⟩).id = id := hid
      have hmem : id ∈ t.map Participant.id :=
        List.mem_map.mpr ⟨t.get ⟨n, hn⟩, List.get_mem t n hn, htid⟩
      have hnotmem : a.id ∉ t.map Participant.id := (List.nodup_cons.mp hnd).1
      have hne : a.id ≠ id := fun hcontra => hnotmem (hcontra ▸ hmem)
      have hbeq : (a.id == id) = false := beq_eq_false_iff_ne.mpr hne
      rw [hbeq]
      show (t.findIdx fun q => q.id == id) + 1 = n + 1
      rw [ih n (List.nodup_cons.mp hnd).2 hn htid]

/-- `findIndex` misses (returns the length, JavaScript's `-1`) exactly when
no record carries the identifier. -/
theorem findIdx_id_of_absent (l : List Participant) (id : Nat)
    (habs : ∀ p ∈ l, p.id ≠ id) :
    l.findIdx (fun q => q.id == id) = l.length :=
  List.findIdx_eq_length.mpr fun p hp => beq_eq_false_iff_ne.mpr (habs p hp)

/-- C7: when the snapshot's identifiers are distinct and the record with
identifier `id` sits at position `i`, a successful `update` replaces exactly
that record with the server-returned one, in place: the length is unchanged,
position `i` now holds the updated record, every other position is
untouched, and the updated record is returned. -/
theorem C7_update_replaces_in_place (st : ServiceState)
    (patch : UpdateParticipantDto) (id i : Nat) (updated : Participant)
    (hnd : (st.participants.map Participant.id).Nodup)
    (hi : i < st.participants.length)
    (hid : (st.participants.get ⟨i, hi⟩).id = id) :
    (updateOp st id patch (.ok updated)).1.participants
      = st.participants.set i updated
    ∧ (updateOp st id patch (.ok updated)).1.participants.length
      = st.participants.length
    ∧ (updateOp st id patch (.ok updated)).1.participants[i]? = some updated
    ∧ (∀ j, j ≠ i →
        (updateOp st id patch (.ok updated)).1.participants[j]?
          = st.participants[j]?)
    ∧ (updateOp st id patch (.ok updated)).2 = .ok updated := by
  have hfind := findIdx_id_of_nodup st.participants id i hnd hi hid
  have hset : (updateOp st id patch (.ok updated)).1.participants
      = st.participants.set i updated := by
    show (if st.participants.findIdx (fun q => q.id == id) < st.participants.length
        then st.participants.set (st.participants.findIdx fun q => q.id == id) updated
        else st.participants) = _
    rw [hfind, if_pos hi]
  refine ⟨hset, ?_, ?_, ?_, rfl⟩
  · rw [hset, List.length_set]
  · rw [hset]
    exact List.getElem?_set_self hi
  · intro j hj
    rw [hset]
    exact List.getElem?_set_ne (fun hcontra => hj hcontra.symm)

/-- C9: when a successful `update` concerns an identifier no snapshot record
carries, `findIndex` misses and the snapshot is left completely unchanged —
in particular the server-returned record is not appended — while the record
is still returned to the caller. -/
theorem C9_update_missing_id_no_change (st : ServiceState)
    (patch : UpdateParticipantDto) (id : Nat) (updated : Participant)
    (habs : ∀ p ∈ st.participants, p.id ≠ id) :
    (updateOp st id patch (.ok updated)).1.participants = st.participants
    ∧ (updateOp st id patch (.ok updated)).2 = .ok updated := by
  have hfind := findIdx_id_of_absent st.participants id habs
  constructor
  · show (if st.participants.findIdx (fun q => q.id == id) < st.participants.length
        then st.participants.set (st.participants.findIdx fun q => q.id == id) updated
        else st.participants) = _
    rw [hfind, if_neg (lt_irrefl _)]
  · rfl

/-- C8: a successful `remove(id)` leaves no record with identifier `id` in
the snapshot, keeps every record with another identifier (with its
multiplicity) in the original order (the new snapshot is a sublist of the
old), and reports success; moreover a subsequent `get(id)`, which by the
external API contract is answered with status 404 once the identifier is
gone, surfaces the NotFound message "Resource not found." and leaves the
snapshot unchanged. -/
theorem C8_remove_then_get_not_found (st : ServiceState) (id : Nat) :
    (∀ p ∈ (removeOp st id (.ok ())).1.participants, p.id ≠ id)
    ∧ (removeOp st id (.ok ())).1.participants.Sublist st.participants
    ∧ (∀ p : Participant, p.id ≠ id →
        (removeOp st id (.ok ())).1.participants.count p
          = st.participants.count p)
    ∧ (removeOp st id (.ok ())).2 = .ok ()
    ∧ (∀ (st' : ServiceState) (errs : Option (List String)) (msg : String),
        (getOp st' id (.error (.server 404 errs msg))).2
            = .error "Resource not found."
          ∧ (getOp st' id (.error (.server 404 errs msg))).1.participants
            = st'.participants) := by
  refine ⟨?_, ?_, ?_, rfl, ?_⟩
  · intro p hp
    have := (List.mem_filter.mp hp).2
    exact bne_iff_ne.mp this
  · exact List.filter_sublist st.participants
  · intro p hne
    exact List.count_filter (bne_iff_ne.mpr hne)
  · intro st' errs msg
    refine ⟨?_, rfl⟩
    show Except.error (handleError (.server 404 errs msg)) = _
    rw [show handleError (.server 404 errs msg) = "Resource not found." from rfl]

/-- The legacy dashboard's `computeStats` includes zero values: on the
snapshot `[{angular:0},{angular:8}]` it reports angular average `4` where
the canonical Aggregator reports `8` — the divergence the spec's design
notes flag, resolved there in favour of the stricter variant. -/
theorem computeStats_includes_zero_values :
    (computeStats [{ id := 1, name := "a", angular_skill := 0 },
        { id := 2, name := "b", angular_skill := 8 }]).avgAngularSkill = 4 := by
  show (((0 + 0 + 8 : ℕ) : ℚ) / ((2 : ℕ) : ℚ)) = 4
  norm_num

/-! ## Witnesses -/

/-- C1 witness: on the snapshot `[{angular:0},{angular:8}]` the theorem
applies and the angular average is `8`, not `4`. -/
theorem C1_witness :
    calculateAverageSkill zeroEightSnapshot .angular_skill
      = specSkillAverage (zeroEightSnapshot.map (fun p => p.skill .angular_skill))
    ∧ calculateAverageSkill zeroEightSnapshot .angular_skill = 8 :=
  ⟨(C1_average_ignores_zero_values zeroEightSnapshot .angular_skill
      (by decide)).1,
    by
      have h := calculateAverageSkill_filter_single zeroEightSnapshot
        .angular_skill 8 (by decide)
      rw [h]
      norm_num⟩

/-- C2 witness: the spec's concrete scenario, angular values `[0, 4, 9]`:
the buckets hold `{low: 0, medium: 1, high: 1}` and partition the two
specified values. -/
theorem C2_witness :
    (calculateSkillDistribution angularScenario .angular_skill).low
      + (calculateSkillDistribution angularScenario .angular_skill).medium
      + (calculateSkillDistribution angularScenario .angular_skill).high
      = (angularScenario.filter
          (fun p => decide (0 < p.skill .angular_skill))).length
    ∧ calculateSkillDistribution angularScenario .angular_skill
      = { low := 0, medium := 1, high := 1 } :=
  ⟨(C2_buckets_partition_specified angularScenario .angular_skill
      (by decide)).2.2.2,
    by decide⟩

/-- C3 witness: the amended theorem applied to a participant with angular
skill `11`. -/
theorem C3_witness :
    (calculateStats [{ id := 1, name := "x", angular_skill := 11 }]).avgOf
        SkillType.angular_skill = 11
    ∧ (calculateStats [{ id := 1, name := "x", angular_skill := 11 }]).skillDistribution
        SkillType.angular_skill = some { low := 0, medium := 0, high := 0 } := by
  have h := C3_amended_out_of_range_included
    { id := 1, name := "x", angular_skill := 11 } .angular_skill (by decide)
  exact ⟨h.1.trans (by norm_num [Participant.skill]), h.2⟩

/-- C5 witness: the empty snapshot yields total `0` and zero averages, and
the guarded average evaluates to `0` on the empty filtered collection. -/
theorem C5_witness :
    (calculateStats []).totalCount = 0
    ∧ (calculateStats []).avgOf SkillType.python_skill = 0
    ∧ calculateAverageSkill [] SkillType.python_skill = 0 :=
  ⟨C5_empty_snapshot_safe.1,
    C5_empty_snapshot_safe.2.1 .python_skill,
    C5_empty_snapshot_safe.2.2 [] .python_skill rfl⟩

/-- C4 witness: a failed `list()` over a pre-existing two-record snapshot
leaves it unchanged and reports the transport failure's message. -/
theorem C4_witness :
    (listOp twoRecordState (.error (.server 0 none "Http failure"))).1.participants
      = [{ id := 1, name := "a" }, { id := 2, name := "b" }]
    ∧ (listOp twoRecordState (.error (.server 0 none "Http failure"))).2
      = .error "Error 0: Http failure" :=
  ⟨(C4_failed_ops_preserve_snapshot twoRecordState
      (.server 0 none "Http failure") 1 { name := "c" } {}).1.1,
    ((C4_failed_ops_preserve_snapshot twoRecordState
        (.server 0 none "Http failure") 1 { name := "c" } {}).1.2).trans
      (congrArg Except.error (by decide))⟩

/-- C6 witness: creating `{name:"Ana"}` over a one-record snapshot appends
the server record, yielding total count `2`. -/
theorem C6_witness :
    (createOp oneRecordState { name := "Ana" }
        (.ok { id := 2, name := "Ana" })).1.participants
      = [{ id := 1, name := "a" }, { id := 2, name := "Ana" }]
    ∧ (createOp oneRecordState { name := "Ana" }
        (.ok { id := 2, name := "Ana" })).1.participants.length = 2
    ∧ (createOp oneRecordState { name := "Ana" }
        (.ok { id := 2, name := "Ana" })).2 = .ok { id := 2, name := "Ana" } := by
  have h := C6_create_appends oneRecordState { name := "Ana" }
    { id := 2, name := "Ana" }
  exact ⟨h.1.trans (by decide), h.2.1.trans (by decide), h.2.2.2.2⟩

/-- C7 witness: updating the record with identifier `2`, sitting at position
`1` of a two-record snapshot with distinct identifiers, replaces exactly
that record. -/
theorem C7_witness :
    (updateOp twoRecordState 2 {} (.ok { id := 2, name := "b2" })).1.participants
      = [{ id := 1, name := "a" }, { id := 2, name := "b2" }]
    ∧ (updateOp twoRecordState 2 {} (.ok { id := 2, name := "b2" })).1.participants[0]?
      = some { id := 1, name := "a" }
    ∧ (updateOp twoRecordState 2 {} (.ok { id := 2, name := "b2" })).2
      = .ok { id := 2, name := "b2" } := by
  have h := C7_update_replaces_in_place twoRecordState
    ({} : UpdateParticipantDto) 2 1 { id := 2, name := "b2" }
    (by decide) (by decide) (by decide)
  exact ⟨h.1.trans (by decide), (h.2.2.2.1 0 (by decide)).trans (by decide),
    h.2.2.2.2⟩

/-- C8 witness: removing identifier `1` from a two-record snapshot keeps the
other record with its multiplicity, and a follow-up `get(1)` answered with
404 surfaces "Resource not found." without touching the snapshot. -/
theorem C8_witness :
    (removeOp twoRecordState 1 (.ok ())).1.participants.count
        { id := 2, name := "b" } = 1
    ∧ (removeOp twoRecordState 1 (.ok ())).2 = .ok ()
    ∧ (getOp oneRecordState 1 (.error (.server 404 none "Not Found"))).2
      = .error "Resource not found." := by
  have h := C8_remove_then_get_not_found twoRecordState 1
  exact ⟨(h.2.2.1 { id := 2, name := "b" } (by decide)).trans (by decide),
    h.2.2.2.1,
    (h.2.2.2.2 oneRecordState none "Not Found").1⟩

/-- C9 witness: a successful update for the absent identifier `99` leaves a
one-record snapshot exactly unchanged. -/
theorem C9_witness :
    (updateOp oneRecordState 99 {} (.ok { id := 99, name := "z" })).1.participants
      = [{ id := 1, name := "a" }]
    ∧ (updateOp oneRecordState 99 {} (.ok { id := 99, name := "z" })).2
      = .ok { id := 99, name := "z" } := by
  have h := C9_update_missing_id_no_change oneRecordState
    ({} : UpdateParticipantDto) 99 { id := 99, name := "z" } (by decide)
  exact ⟨h.1, h.2⟩

/-- C10 witness: the empty snapshot has no distribution entry (and an empty
pie chart), while a one-record snapshot has an entry for a skill. -/
theorem C10_witness :
    (calculateStats []).skillDistribution SkillType.python_skill = none
    ∧ updatePieChart (calculateStats []) SkillType.python_skill
      = { labels := [], data := [] }
    ∧ (calculateStats [{ id := 1, name := "a" }]).skillDistribution
        SkillType.css_skill
      = some (calculateSkillDistribution [{ id := 1, name := "a" }]
          SkillType.css_skill) :=
  ⟨C10_distribution_entries_presence.1 .python_skill,
    C10_distribution_entries_presence.2.1 .python_skill,
    C10_distribution_entries_presence.2.2 [{ id := 1, name := "a" }]
      (by decide) .css_skill⟩

end ParticipantAdmin
